import Mathlib

/-!
Shallow embedding of `scripts/process_data.py` from the
medical-desert-california repository.

Tabular data is modelled as lists of records (one structure per table
schema).  Nullable cells (pandas `NaN`) are modelled as `Option`:
`none` is `NaN`, and the pandas comparison semantics `NaN > x = False`,
`NaN <= x = False` are reproduced explicitly where the source relies on
them.  Numeric cell values are rationals (`ℚ`); the source only ever
adds, divides and compares them, so no floating-point behaviour is
involved in any claim.

File-system and printing effects are modelled only where a claim needs
them: the two loaders take an environment that says whether each raw
file exists, and `main` folds the `try/except` dispatch of the script
into a `MainOutcome` value.
-/

/-- One row of the raw CDC PLACES census-tract CSV, restricted to the
columns `process_data.py` reads.  `LocationID` is read by pandas as an
integer (leading zeros are lost until the zfill in `merge_datasets`),
`Data_Value` is nullable. -/
structure HealthObs where
  stateAbbr : String
  locationID : Nat
  locationName : String
  countyName : String
  measureId : String
  dataValueType : String
  dataValue : Option ℚ
deriving Repr, DecidableEq

/-- The measure allow-list of `load_cdc_places`. -/
def measures_to_keep : List String :=
  ["DIABETES", "CHD", "STROKE", "OBESITY", "BPHIGH", "CSMOKING", "CHECKUP", "ACCESS2"]

/-- The pure filtering part of `load_cdc_places`: keep California rows
whose measure is on the allow-list with value type `Crude prevalence`. -/
def cdcFilter (rows : List HealthObs) : List HealthObs :=
  (rows.filter (fun r => r.stateAbbr == "CA")).filter
    (fun r => measures_to_keep.contains r.measureId && r.dataValueType == "Crude prevalence")

/-- The grouping key of the pivot in `pivot_health_data`:
`index=['LocationID', 'LocationName', 'CountyName']`. -/
def pivotKey (r : HealthObs) : Nat × String × String :=
  (r.locationID, r.locationName, r.countyName)

/-- One row of the pivoted (wide) health table, after the column
renaming of `pivot_health_data`. -/
structure PivotRow where
  tract_fips : Nat
  location_name : String
  county_name : String
  diabetes_prevalence : Option ℚ
  heart_disease_prevalence : Option ℚ
  stroke_prevalence : Option ℚ
  obesity_prevalence : Option ℚ
  high_bp_prevalence : Option ℚ
  smoking_prevalence : Option ℚ
  annual_checkup_pct : Option ℚ
  no_insurance_pct : Option ℚ
deriving Repr, DecidableEq

/-- `aggfunc='first'` of `pivot_table`: the first non-null `Data_Value`
among the rows of a given group that carry a given measure id. -/
def firstVal (rows : List HealthObs) (k : Nat × String × String) (m : String) : Option ℚ :=
  (((rows.filter (fun r => pivotKey r == k && r.measureId == m)).filterMap
      (fun r => r.dataValue)).head?)

/-- The wide row built for one pivot group. -/
def mkPivotRow (rows : List HealthObs) (k : Nat × String × String) : PivotRow :=
  { tract_fips := k.1
    location_name := k.2.1
    county_name := k.2.2
    diabetes_prevalence := firstVal rows k "DIABETES"
    heart_disease_prevalence := firstVal rows k "CHD"
    stroke_prevalence := firstVal rows k "STROKE"
    obesity_prevalence := firstVal rows k "OBESITY"
    high_bp_prevalence := firstVal rows k "BPHIGH"
    smoking_prevalence := firstVal rows k "CSMOKING"
    annual_checkup_pct := firstVal rows k "CHECKUP"
    no_insurance_pct := firstVal rows k "ACCESS2" }

/-- True when every measure cell of a wide row is null. -/
def pivotRowAllNull (p : PivotRow) : Bool :=
  p.diabetes_prevalence.isNone && p.heart_disease_prevalence.isNone &&
  p.stroke_prevalence.isNone && p.obesity_prevalence.isNone &&
  p.high_bp_prevalence.isNone && p.smoking_prevalence.isNone &&
  p.annual_checkup_pct.isNone && p.no_insurance_pct.isNone

/-- `pivot_health_data`: `pivot_table(index=[LocationID, LocationName,
CountyName], columns='MeasureId', values='Data_Value', aggfunc='first')`
followed by the column renaming.  One output row per distinct key
triple; `pivot_table`'s default `dropna=True` drops result rows whose
value cells are all null.  (pandas additionally sorts the groups by key
and drops all-null value columns; neither affects any row's content or
the row count, and the schema here is the fixed eight-measure schema of
the full CDC extract.) -/
def pivot_health_data (rows : List HealthObs) : List PivotRow :=
  (((rows.map pivotKey).dedup).map (mkPivotRow rows)).filter
    (fun p => !(pivotRowAllNull p))

/-- One row of the USDA Food Access sheet, restricted to the projected
columns of `load_usda_food_access`.  `CensusTract` is numeric; the flag
and population columns are nullable. -/
structure FoodRow where
  censusTract : Nat
  state : String
  county : String
  urban : Option ℚ
  LILATracts_1And10 : Option ℚ
  LILATracts_halfAnd10 : Option ℚ
  LILATracts_1And20 : Option ℚ
  lapophalf : Option ℚ
  lapop1 : Option ℚ
  lapop10 : Option ℚ
  lalowihalf : Option ℚ
  lalowi1 : Option ℚ
  lalowi10 : Option ℚ
deriving Repr, DecidableEq

/-- Python's `str.zfill(width)` on a list of characters: strings already
at least `width` long are returned unchanged; otherwise zeros are
inserted on the left, after a leading sign character if there is one. -/
def pyZfillCore (width : Nat) (l : List Char) : List Char :=
  if width ≤ l.length then l
  else
    match l with
    | [] => List.replicate width '0'
    | c :: rest =>
      if c = '+' ∨ c = '-' then c :: (List.replicate (width - l.length) '0' ++ rest)
      else List.replicate (width - l.length) '0' ++ (c :: rest)

/-- Python's `str.zfill(width)`. -/
def pyZfill (width : Nat) (s : String) : String :=
  String.mk (pyZfillCore width s.toList)

/-- A USDA row with the derived `tract_fips` column of
`load_usda_food_access`. -/
structure FoodRowP extends FoodRow where
  tract_fips : String
deriving Repr, DecidableEq

/-- The pure part of `load_usda_food_access`: filter to California,
project the kept columns, and derive
`tract_fips = CensusTract.astype(str).str.zfill(11)`. -/
def usdaPrepare (rows : List FoodRow) : List FoodRowP :=
  (rows.filter (fun f => f.state == "California")).map
    (fun f => { toFoodRow := f, tract_fips := pyZfill 11 (toString f.censusTract) })

/-- One row of the merged table of `merge_datasets`: all health columns
plus the food-access columns, the latter nullable because the join is a
left join. -/
structure MergedRow where
  tract_fips : String
  location_name : String
  county_name : String
  diabetes_prevalence : Option ℚ
  heart_disease_prevalence : Option ℚ
  stroke_prevalence : Option ℚ
  obesity_prevalence : Option ℚ
  high_bp_prevalence : Option ℚ
  smoking_prevalence : Option ℚ
  annual_checkup_pct : Option ℚ
  no_insurance_pct : Option ℚ
  censusTract : Option Nat
  state : Option String
  county : Option String
  urban : Option ℚ
  LILATracts_1And10 : Option ℚ
  LILATracts_halfAnd10 : Option ℚ
  LILATracts_1And20 : Option ℚ
  lapophalf : Option ℚ
  lapop1 : Option ℚ
  lapop10 : Option ℚ
  lalowihalf : Option ℚ
  lalowi1 : Option ℚ
  lalowi10 : Option ℚ
deriving Repr, DecidableEq

/-- Build one merged row from a health row and an optional matching
food-access row; `none` leaves every food-access cell null. -/
def mergeRow (h : PivotRow) (fips : String) (f : Option FoodRowP) : MergedRow :=
  { tract_fips := fips
    location_name := h.location_name
    county_name := h.county_name
    diabetes_prevalence := h.diabetes_prevalence
    heart_disease_prevalence := h.heart_disease_prevalence
    stroke_prevalence := h.stroke_prevalence
    obesity_prevalence := h.obesity_prevalence
    high_bp_prevalence := h.high_bp_prevalence
    smoking_prevalence := h.smoking_prevalence
    annual_checkup_pct := h.annual_checkup_pct
    no_insurance_pct := h.no_insurance_pct
    censusTract := f.map (fun g => g.censusTract)
    state := f.map (fun g => g.state)
    county := f.map (fun g => g.county)
    urban := f.bind (fun g => g.urban)
    LILATracts_1And10 := f.bind (fun g => g.LILATracts_1And10)
    LILATracts_halfAnd10 := f.bind (fun g => g.LILATracts_halfAnd10)
    LILATracts_1And20 := f.bind (fun g => g.LILATracts_1And20)
    lapophalf := f.bind (fun g => g.lapophalf)
    lapop1 := f.bind (fun g => g.lapop1)
    lapop10 := f.bind (fun g => g.lapop10)
    lalowihalf := f.bind (fun g => g.lalowihalf)
    lalowi1 := f.bind (fun g => g.lalowi1)
    lalowi10 := f.bind (fun g => g.lalowi10) }

/-- The rows the left join produces for one health row: one row per
matching food-access row, or a single all-null-food row when nothing
matches. -/
def mergeBundle (food2 : List FoodRowP) (h : PivotRow) : List MergedRow :=
  match food2.filter (fun f => f.tract_fips == pyZfill 11 (toString h.tract_fips)) with
  | [] => [mergeRow h (pyZfill 11 (toString h.tract_fips)) none]
  | ms => ms.map (fun f => mergeRow h (pyZfill 11 (toString h.tract_fips)) (some f))

/-- `merge_datasets`: re-zfill the tract key on both sides
(`astype(str).str.zfill(11)` on the health side's integer ids, a
re-zfill on the food side's string ids), then
`health_df.merge(food_df, on='tract_fips', how='left')` — every health
row paired with each matching food row, or with nulls when no food row
matches. -/
def merge_datasets (health : List PivotRow) (food : List FoodRowP) : List MergedRow :=
  health.flatMap
    (mergeBundle (food.map (fun f => { f with tract_fips := pyZfill 11 f.tract_fips })))

/-- One row after `calculate_risk_scores`: the merged columns with
`LILATracts_1And10` and `Urban` now non-null (filled with `0` resp. `1`)
plus the four derived risk fields. -/
structure ScoredRow where
  tract_fips : String
  location_name : String
  county_name : String
  diabetes_prevalence : Option ℚ
  heart_disease_prevalence : Option ℚ
  stroke_prevalence : Option ℚ
  obesity_prevalence : Option ℚ
  high_bp_prevalence : Option ℚ
  smoking_prevalence : Option ℚ
  annual_checkup_pct : Option ℚ
  no_insurance_pct : Option ℚ
  censusTract : Option Nat
  state : Option String
  county : Option String
  urban : ℚ
  LILATracts_1And10 : ℚ
  LILATracts_halfAnd10 : Option ℚ
  LILATracts_1And20 : Option ℚ
  lapophalf : Option ℚ
  lapop1 : Option ℚ
  lapop10 : Option ℚ
  lalowihalf : Option ℚ
  lalowi1 : Option ℚ
  lalowi10 : Option ℚ
  health_risk_score : Option ℚ
  health_risk_category : Option String
  is_food_desert : Bool
  combined_risk : String
deriving Repr, DecidableEq

/-- `df[health_measures].mean(axis=1)` with pandas' default `skipna`:
the mean of the non-null entries, null when every entry is null. -/
def meanOpt (l : List (Option ℚ)) : Option ℚ :=
  let v := l.filterMap id
  if v.isEmpty then none else some (v.sum / (v.length : ℚ))

/-- `health_risk_score`: the mean of the five score-contributing
measures (diabetes, heart disease, obesity, high blood pressure,
uninsured), skipping missing ones. -/
def healthRiskScoreOf (r : MergedRow) : Option ℚ :=
  meanOpt [r.diabetes_prevalence, r.heart_disease_prevalence, r.obesity_prevalence,
    r.high_bp_prevalence, r.no_insurance_pct]

/-- `pd.cut(score, bins=[0, 10, 15, 20, 100], labels=[...])` with the
pandas default `right=True`, `include_lowest=False`: the intervals are
left-open right-closed, and a value outside every interval (including
exactly `0`) or a null value gets a null category. -/
def pdCutRisk : Option ℚ → Option String
  | none => none
  | some x =>
    if 0 < x ∧ x ≤ 10 then some "Low Risk"
    else if 10 < x ∧ x ≤ 15 then some "Medium Risk"
    else if 15 < x ∧ x ≤ 20 then some "High Risk"
    else if 20 < x ∧ x ≤ 100 then some "Critical Risk"
    else none

/-- The sequence of masked assignments building `combined_risk`.  A null
score fails both `score > 15` and `score <= 15` (pandas `NaN`
comparisons are false), so the initial `'Low Risk'` survives. -/
def combinedRiskOf (score : Option ℚ) (desert : Bool) : String :=
  let gt15 : Bool := match score with | some s => decide (15 < s) | none => false
  let le15 : Bool := match score with | some s => decide (s ≤ 15) | none => false
  let c0 := "Low Risk"
  let c1 := if gt15 && desert then "High Risk: Desert + Disease" else c0
  let c2 := if gt15 && !desert then "High Risk: Disease Only" else c1
  if le15 && desert then "Moderate Risk: Desert Only" else c2

/-- The per-row body of `calculate_risk_scores`: fill the missing LILA
flag with `0` and the missing urban flag with `1`, then derive the
score, the cut category, the food-desert flag (`LILATracts_1And10 == 1`
on the filled column) and the combined-risk label. -/
def scoreRow (r : MergedRow) : ScoredRow :=
  let lilaF : ℚ := r.LILATracts_1And10.getD 0
  let urbanF : ℚ := r.urban.getD 1
  let score : Option ℚ := healthRiskScoreOf r
  let desert : Bool := lilaF == 1
  { tract_fips := r.tract_fips
    location_name := r.location_name
    county_name := r.county_name
    diabetes_prevalence := r.diabetes_prevalence
    heart_disease_prevalence := r.heart_disease_prevalence
    stroke_prevalence := r.stroke_prevalence
    obesity_prevalence := r.obesity_prevalence
    high_bp_prevalence := r.high_bp_prevalence
    smoking_prevalence := r.smoking_prevalence
    annual_checkup_pct := r.annual_checkup_pct
    no_insurance_pct := r.no_insurance_pct
    censusTract := r.censusTract
    state := r.state
    county := r.county
    urban := urbanF
    LILATracts_1And10 := lilaF
    LILATracts_halfAnd10 := r.LILATracts_halfAnd10
    LILATracts_1And20 := r.LILATracts_1And20
    lapophalf := r.lapophalf
    lapop1 := r.lapop1
    lapop10 := r.lapop10
    lalowihalf := r.lalowihalf
    lalowi1 := r.lalowi1
    lalowi10 := r.lalowi10
    health_risk_score := score
    health_risk_category := pdCutRisk score
    is_food_desert := desert
    combined_risk := combinedRiskOf score desert }

/-- `calculate_risk_scores`: the column operations are row-independent,
so the whole stage is a map of `scoreRow` over the merged table. -/
def calculate_risk_scores (df : List MergedRow) : List ScoredRow :=
  df.map scoreRow

/-- Lowercase a string character by character, as Python's `str.lower`
does for the ASCII county names involved here. -/
def lowerChars (s : String) : List Char := s.toList.map Char.toLower

/-- Whether the first list is a prefix of the second. -/
def startsWithChars : List Char → List Char → Bool
  | [], _ => true
  | _ :: _, [] => false
  | c :: cs, d :: ds => c == d && startsWithChars cs ds

/-- Whether `needle` occurs as a contiguous run inside the second list. -/
def containsChars (needle : List Char) : List Char → Bool
  | [] => startsWithChars needle []
  | d :: ds => startsWithChars needle (d :: ds) || containsChars needle ds

/-- `df['county_name'].str.contains(term, case=False, na=False)`:
case-insensitive substring containment (both sides lowercased).  The
`na=False` flag would send a null county name to `False`; county names
here come from the pivot index and are total strings. -/
def countyTermMatches (term county : String) : Bool :=
  containsChars (lowerChars term) (lowerChars county)

/-- `focus_on_santa_clara`: the filtered subset, paired with the
content of the write that the function performs — `none` when nothing
is written, which is exactly the case `len(df_sc) > 0` fails. -/
def focus_on_santa_clara (df : List ScoredRow) : List ScoredRow × Option (List ScoredRow) :=
  let df_sc := df.filter (fun r => countyTermMatches "Santa Clara" r.county_name)
  (df_sc, if 0 < df_sc.length then some df_sc else none)

/-- The exception kinds relevant to `main`'s `try/except` blocks:
`FileNotFoundError` versus every other exception. -/
inductive PyError where
  | fileNotFound : String → PyError
  | other : String → PyError
deriving Repr, DecidableEq

/-- The run environment of the transformer: whether each raw input file
exists and, when it does, its parsed rows. -/
structure Env where
  cdcExists : Bool
  cdcRows : List HealthObs
  usdaExists : Bool
  usdaRows : List FoodRow

/-- The message of the `FileNotFoundError` raised by `load_cdc_places`. -/
def cdcNotFoundMsg : String :=
  "CDC PLACES data not found. Run download_data.py first."

/-- The message of the `FileNotFoundError` raised by
`load_usda_food_access`. -/
def usdaNotFoundMsg : String :=
  "USDA Food Access data not found. Run download_data.py first."

/-- `load_cdc_places`: raise `FileNotFoundError` when the raw CSV is
absent, otherwise return the filtered California rows. -/
def load_cdc_places (env : Env) : Except PyError (List HealthObs) :=
  if env.cdcExists then Except.ok (cdcFilter env.cdcRows)
  else Except.error (PyError.fileNotFound cdcNotFoundMsg)

/-- `load_usda_food_access`: raise `FileNotFoundError` when the raw
spreadsheet is absent, otherwise return the prepared California rows. -/
def load_usda_food_access (env : Env) : Except PyError (List FoodRowP) :=
  if env.usdaExists then Except.ok (usdaPrepare env.usdaRows)
  else Except.error (PyError.fileNotFound usdaNotFoundMsg)

/-- The body of `main`'s `try` block, through the risk-scoring stage. -/
def runPipeline (env : Env) : Except PyError (List ScoredRow) := do
  let health ← load_cdc_places env
  let healthPivot := pivot_health_data health
  let food ← load_usda_food_access env
  let merged := merge_datasets healthPivot food
  return calculate_risk_scores merged

/-- The scored table a successful run produces, as a pure function of
the environment. -/
def pipelineFinal (env : Env) : List ScoredRow :=
  calculate_risk_scores
    (merge_datasets (pivot_health_data (cdcFilter env.cdcRows)) (usdaPrepare env.usdaRows))

/-- How `main` ends: the pipeline completed and performed the listed
file writes; or a `FileNotFoundError` was caught and reported with a
message telling the operator to run the downloader first (nothing is
re-raised); or some other exception was logged and re-raised. -/
inductive MainOutcome where
  | completed : List (String × List ScoredRow) → MainOutcome
  | missingInput : String → MainOutcome
  | reraised : String → MainOutcome
deriving Repr, DecidableEq

/-- The two `except` clauses of `main`: `FileNotFoundError` is caught
and reported without re-raising, any other exception is re-raised. -/
def handleErr : PyError → MainOutcome
  | PyError.fileNotFound m => MainOutcome.missingInput m
  | PyError.other m => MainOutcome.reraised m

/-- The file writes of a successful run: the full California CSV is
always written; the Santa Clara CSV only when the county filter kept at
least one row. -/
def pipelineWrites (final : List ScoredRow) : List (String × List ScoredRow) :=
  ("california_health_equity.csv", final) ::
    (match (focus_on_santa_clara final).2 with
      | some d => [("santa_clara_health_equity.csv", d)]
      | none => [])

/-- The script's `main`: run the pipeline and the two persist steps
inside `try`, dispatching any exception to the matching `except`
clause.  (Named `mainRun` because Lean reserves `main` for program
entry points.) -/
def mainRun (env : Env) : MainOutcome :=
  match runPipeline env with
  | Except.ok final => MainOutcome.completed (pipelineWrites final)
  | Except.error e => handleErr e

/-! ## Helper lemmas -/

theorem startsWithChars_iff (n h : List Char) : startsWithChars n h = true ↔ n <+: h := by
  induction n generalizing h with
  | nil => simp [startsWithChars, List.nil_prefix]
  | cons c cs ih =>
    cases h with
    | nil =>
      simp only [startsWithChars, Bool.false_eq_true, false_iff]
      intro hp
      exact absurd hp.length_le (by simp)
    | cons d ds =>
      simp [startsWithChars, ih, List.cons_prefix_cons, and_comm]

theorem containsChars_iff (n h : List Char) : containsChars n h = true ↔ n <:+: h := by
  induction h with
  | nil => simp [containsChars, startsWithChars_iff, List.infix_nil]
  | cons d ds ih =>
    simp only [containsChars, Bool.or_eq_true, ih, startsWithChars_iff,
      List.infix_cons_iff]

theorem pyZfillCore_of_le (w : Nat) (l : List Char) (h : w ≤ l.length) :
    pyZfillCore w l = l := by
  unfold pyZfillCore
  simp [h]

theorem pyZfillCore_nosign (w : Nat) (l : List Char) (h : l.length < w)
    (hd : ∀ c ∈ l, c.isDigit = true) :
    pyZfillCore w l = List.replicate (w - l.length) '0' ++ l := by
  cases l with
  | nil =>
    unfold pyZfillCore
    rw [if_neg (by omega)]
    simp
  | cons c rest =>
    have hc := hd c (List.mem_cons_self c rest)
    have hsign : ¬(c = '+' ∨ c = '-') := by
      rintro (h1 | h1) <;> (subst h1; exact absurd hc (by decide))
    unfold pyZfillCore
    rw [if_neg (by omega)]
    simp [hsign]

/-! ## C5: the zero-padding function -/

/-- C5 (confirmed).  Tract ids are `str()` renderings of numeric census
tract codes, hence digit strings of at most 11 characters.  For every
such string, `zfill(11)` left-pads with `'0'` to exactly 11 characters
and is idempotent. -/
theorem c5_zfill_pads_to_eleven (s : String) (h1 : s.length ≤ 11)
    (h2 : ∀ c ∈ s.toList, c.isDigit = true) :
    pyZfill 11 s = String.mk (List.replicate (11 - s.length) '0' ++ s.toList) ∧
    (pyZfill 11 s).length = 11 ∧
    pyZfill 11 (pyZfill 11 s) = pyZfill 11 s := by
  have hlen : s.length = s.toList.length := rfl
  have hcore : pyZfillCore 11 s.toList = List.replicate (11 - s.toList.length) '0' ++ s.toList := by
    rcases Nat.lt_or_ge s.toList.length 11 with hlt | hge
    · exact pyZfillCore_nosign 11 s.toList hlt h2
    · have h11 : s.toList.length = 11 := le_antisymm (hlen ▸ h1) hge
      rw [pyZfillCore_of_le 11 s.toList hge, h11]
      simp
  have hA : pyZfill 11 s = String.mk (List.replicate (11 - s.length) '0' ++ s.toList) := by
    rw [pyZfill, hcore, hlen]
  have hB : (pyZfill 11 s).length = 11 := by
    rw [hA]
    show (List.replicate (11 - s.length) '0' ++ s.toList).length = 11
    rw [List.length_append, List.length_replicate, ← hlen]
    omega
  refine ⟨hA, hB, ?_⟩
  have hB2 : 11 ≤ (pyZfill 11 s).toList.length := le_of_eq hB.symm
  show String.mk (pyZfillCore 11 (pyZfill 11 s).toList) = pyZfill 11 s
  rw [pyZfillCore_of_le 11 _ hB2]
  rfl

/-- Witness for C5 at the concrete tract id `"6085500100"` (the
stringified numeric code of a Santa Clara County tract). -/
theorem c5_zfill_pads_to_eleven_witness :
    pyZfill 11 "6085500100" =
      String.mk (List.replicate (11 - "6085500100".length) '0' ++ "6085500100".toList) ∧
    (pyZfill 11 "6085500100").length = 11 ∧
    pyZfill 11 (pyZfill 11 "6085500100") = pyZfill 11 "6085500100" :=
  c5_zfill_pads_to_eleven "6085500100" (by decide) (by decide)

/-! ## C8: the county filter -/

/-- C8 (confirmed).  A row is kept by `focus_on_santa_clara` exactly
when the configured term matches its county name; the match is
case-insensitive (the capitalised configured term and the lowercase
spec term agree on every county name) and substring-based, and on the
claim's two examples it keeps `"Santa Clara County"` and drops
`"San Diego"`. -/
theorem c8_county_filter_membership (df : List ScoredRow) (r : ScoredRow) :
    (r ∈ (focus_on_santa_clara df).1 ↔
      r ∈ df ∧ countyTermMatches "Santa Clara" r.county_name = true) ∧
    countyTermMatches "Santa Clara" r.county_name =
      countyTermMatches "santa clara" r.county_name ∧
    (∀ t c : String, countyTermMatches t c = true ↔ lowerChars t <:+: lowerChars c) ∧
    countyTermMatches "santa clara" "Santa Clara County" = true ∧
    countyTermMatches "santa clara" "San Diego" = false := by
  refine ⟨?_, ?_, ?_, by decide, by decide⟩
  · simp [focus_on_santa_clara, List.mem_filter]
  · have h : lowerChars "Santa Clara" = lowerChars "santa clara" := by decide
    simp only [countyTermMatches, h]
  · intro t c
    exact containsChars_iff _ _

/-! ## C7: missing-input errors versus other errors -/

/-- C7 (confirmed).  When the raw CDC file is absent the load stage
fails with a `FileNotFoundError` whose message directs the operator to
the downloader, and `main` reports it without re-raising; the
`FileNotFoundError` handler never re-raises, while every other
exception is re-raised. -/
theorem c7_missing_input_vs_other_errors (env : Env) (h : env.cdcExists = false) :
    load_cdc_places env = Except.error (PyError.fileNotFound cdcNotFoundMsg) ∧
    mainRun env = MainOutcome.missingInput cdcNotFoundMsg ∧
    (∀ m, handleErr (PyError.fileNotFound m) = MainOutcome.missingInput m) ∧
    (∀ m, handleErr (PyError.other m) = MainOutcome.reraised m) ∧
    (∀ m m2, MainOutcome.missingInput m ≠ MainOutcome.reraised m2) := by
  have hload : load_cdc_places env = Except.error (PyError.fileNotFound cdcNotFoundMsg) := by
    simp [load_cdc_places, h]
  refine ⟨hload, ?_, fun m => rfl, fun m => rfl, fun m m2 => by simp⟩
  simp [mainRun, runPipeline, hload, handleErr, Except.bind, Bind.bind]

/-- A run environment whose CDC raw file is absent. -/
def envNoCdc : Env := ⟨false, [], true, []⟩

/-- Witness for C7 at a concrete environment with the CDC file absent. -/
theorem c7_missing_input_vs_other_errors_witness :
    load_cdc_places envNoCdc = Except.error (PyError.fileNotFound cdcNotFoundMsg) ∧
    mainRun envNoCdc = MainOutcome.missingInput cdcNotFoundMsg ∧
    (∀ m, handleErr (PyError.fileNotFound m) = MainOutcome.missingInput m) ∧
    (∀ m, handleErr (PyError.other m) = MainOutcome.reraised m) ∧
    (∀ m m2, MainOutcome.missingInput m ≠ MainOutcome.reraised m2) :=
  c7_missing_input_vs_other_errors envNoCdc rfl

/-! ## Risk-scoring lemmas (C1, C4, C6, C10) -/

theorem scoreRow_health_risk_score (r : MergedRow) :
    (scoreRow r).health_risk_score = healthRiskScoreOf r := rfl

theorem scoreRow_health_risk_category (r : MergedRow) :
    (scoreRow r).health_risk_category = pdCutRisk (healthRiskScoreOf r) := rfl

theorem scoreRow_is_food_desert (r : MergedRow) :
    (scoreRow r).is_food_desert = (r.LILATracts_1And10.getD 0 == 1) := rfl

theorem scoreRow_combined (r : MergedRow) :
    (scoreRow r).combined_risk =
      combinedRiskOf (healthRiskScoreOf r) (r.LILATracts_1And10.getD 0 == 1) := rfl

theorem pdCutRisk_some_eq (s : ℚ) :
    pdCutRisk (some s) =
      (if 0 < s ∧ s ≤ 10 then some "Low Risk"
       else if 10 < s ∧ s ≤ 15 then some "Medium Risk"
       else if 15 < s ∧ s ≤ 20 then some "High Risk"
       else if 20 < s ∧ s ≤ 100 then some "Critical Risk"
       else none) := rfl

theorem pdCutRisk_eq_low_iff (s : ℚ) :
    pdCutRisk (some s) = some "Low Risk" ↔ 0 < s ∧ s ≤ 10 := by
  rw [pdCutRisk_some_eq]
  split_ifs with h1 h2 h3 h4
  · simp [h1]
  · simp only [Option.some.injEq]
    exact ⟨fun hx => absurd hx (by decide), fun hx => absurd hx h1⟩
  · simp only [Option.some.injEq]
    exact ⟨fun hx => absurd hx (by decide), fun hx => absurd hx h1⟩
  · simp only [Option.some.injEq]
    exact ⟨fun hx => absurd hx (by decide), fun hx => absurd hx h1⟩
  · simp [h1]

theorem pdCutRisk_eq_medium_iff (s : ℚ) :
    pdCutRisk (some s) = some "Medium Risk" ↔ 10 < s ∧ s ≤ 15 := by
  rw [pdCutRisk_some_eq]
  split_ifs with h1 h2 h3 h4
  · simp only [Option.some.injEq]
    exact ⟨fun hx => absurd hx (by decide),
      fun hx => absurd h1.2 (not_le.mpr hx.1)⟩
  · simp [h2]
  · simp only [Option.some.injEq]
    exact ⟨fun hx => absurd hx (by decide), fun hx => absurd hx h2⟩
  · simp only [Option.some.injEq]
    exact ⟨fun hx => absurd hx (by decide), fun hx => absurd hx h2⟩
  · simp [h2]

theorem pdCutRisk_eq_high_iff (s : ℚ) :
    pdCutRisk (some s) = some "High Risk" ↔ 15 < s ∧ s ≤ 20 := by
  rw [pdCutRisk_some_eq]
  split_ifs with h1 h2 h3 h4
  · simp only [Option.some.injEq]
    exact ⟨fun hx => absurd hx (by decide),
      fun hx => absurd h1.2 (not_le.mpr (lt_trans (by norm_num) hx.1))⟩
  · simp only [Option.some.injEq]
    exact ⟨fun hx => absurd hx (by decide),
      fun hx => absurd h2.2 (not_le.mpr hx.1)⟩
  · simp [h3]
  · simp only [Option.some.injEq]
    exact ⟨fun hx => absurd hx (by decide), fun hx => absurd hx h3⟩
  · simp [h3]

theorem pdCutRisk_eq_critical_iff (s : ℚ) :
    pdCutRisk (some s) = some "Critical Risk" ↔ 20 < s ∧ s ≤ 100 := by
  rw [pdCutRisk_some_eq]
  split_ifs with h1 h2 h3 h4
  · simp only [Option.some.injEq]
    exact ⟨fun hx => absurd hx (by decide),
      fun hx => absurd h1.2 (not_le.mpr (lt_trans (by norm_num) hx.1))⟩
  · simp only [Option.some.injEq]
    exact ⟨fun hx => absurd hx (by decide),
      fun hx => absurd h2.2 (not_le.mpr (lt_trans (by norm_num) hx.1))⟩
  · simp only [Option.some.injEq]
    exact ⟨fun hx => absurd hx (by decide),
      fun hx => absurd h3.2 (not_le.mpr hx.1)⟩
  · simp [h4]
  · simp [h4]

theorem combinedRiskOf_some (s : ℚ) (d : Bool) :
    combinedRiskOf (some s) d =
      if 15 < s then
        (if d then "High Risk: Desert + Disease" else "High Risk: Disease Only")
      else
        (if d then "Moderate Risk: Desert Only" else "Low Risk") := by
  by_cases h15 : 15 < s
  · have hnle : ¬s ≤ 15 := not_le.mpr h15
    cases d <;> simp [combinedRiskOf, h15, hnle]
  · have hle : s ≤ 15 := not_lt.mp h15
    cases d <;> simp [combinedRiskOf, h15, hle]

theorem combinedRiskOf_none (d : Bool) : combinedRiskOf none d = "Low Risk" := by
  cases d <;> rfl

/-- A merged record with the five score-contributing measures all set
to the same optional value, a given LILA flag and a given urban flag;
the remaining cells are null. -/
def mkSampleMerged (five lila urb : Option ℚ) : MergedRow :=
  { tract_fips := "06085500100"
    location_name := "Census Tract 5001"
    county_name := "Santa Clara County"
    diabetes_prevalence := five
    heart_disease_prevalence := five
    stroke_prevalence := none
    obesity_prevalence := five
    high_bp_prevalence := five
    smoking_prevalence := none
    annual_checkup_pct := none
    no_insurance_pct := five
    censusTract := none
    state := none
    county := none
    urban := urb
    LILATracts_1And10 := lila
    LILATracts_halfAnd10 := none
    LILATracts_1And20 := none
    lapophalf := none
    lapop1 := none
    lapop10 := none
    lalowihalf := none
    lalowi1 := none
    lalowi10 := none }

theorem healthRiskScoreOf_sample (v : ℚ) (lila urb : Option ℚ) :
    healthRiskScoreOf (mkSampleMerged (some v) lila urb) = some v := by
  simp [healthRiskScoreOf, mkSampleMerged, meanOpt, List.filterMap, List.sum_cons,
    List.sum_nil]
  ring

/-! ## C1: risk-category bucket boundaries -/

/-- C1 counterexample.  The claim says a score of exactly 10 maps to
`"Medium Risk"` and a score of exactly 0 to `"Low Risk"`; on the code
(pandas `cut` with default `right=True`) a score of 10 falls in the
interval `(0, 10]` and maps to `"Low Risk"`, and a score of 0 falls in
no interval and gets a null category. -/
theorem c1_risk_category_counterexample :
    (scoreRow (mkSampleMerged (some 10) none none)).health_risk_score = some 10 ∧
    (scoreRow (mkSampleMerged (some 10) none none)).health_risk_category = some "Low Risk" ∧
    (scoreRow (mkSampleMerged (some 10) none none)).health_risk_category ≠ some "Medium Risk" ∧
    (scoreRow (mkSampleMerged (some 0) none none)).health_risk_score = some 0 ∧
    (scoreRow (mkSampleMerged (some 0) none none)).health_risk_category = none := by
  have h10 := healthRiskScoreOf_sample 10 none none
  have h0 := healthRiskScoreOf_sample 0 none none
  refine ⟨h10, ?_, ?_, h0, ?_⟩
  · rw [scoreRow_health_risk_category, h10]; decide
  · rw [scoreRow_health_risk_category, h10]; decide
  · rw [scoreRow_health_risk_category, h0]; decide

/-- C1 (corrected).  The bucketing over thresholds `[0, 10, 15, 20,
100]` is open-closed (left-open, right-closed), not closed-open: for
every merged record whose health-risk score is `s`, the category is
`"Low Risk"` iff `0 < s ≤ 10`, `"Medium Risk"` iff `10 < s ≤ 15`,
`"High Risk"` iff `15 < s ≤ 20`, and `"Critical Risk"` iff
`20 < s ≤ 100`; hence a score of exactly 10 maps to `"Low Risk"`, 15 to
`"Medium Risk"`, 100 to `"Critical Risk"`, and 0 to no category. -/
theorem c1_risk_category_buckets (r : MergedRow) (s : ℚ)
    (h : (scoreRow r).health_risk_score = some s) :
    ((scoreRow r).health_risk_category = some "Low Risk" ↔ 0 < s ∧ s ≤ 10) ∧
    ((scoreRow r).health_risk_category = some "Medium Risk" ↔ 10 < s ∧ s ≤ 15) ∧
    ((scoreRow r).health_risk_category = some "High Risk" ↔ 15 < s ∧ s ≤ 20) ∧
    ((scoreRow r).health_risk_category = some "Critical Risk" ↔ 20 < s ∧ s ≤ 100) := by
  have hs : healthRiskScoreOf r = some s := h
  rw [scoreRow_health_risk_category, hs]
  exact ⟨pdCutRisk_eq_low_iff s, pdCutRisk_eq_medium_iff s, pdCutRisk_eq_high_iff s,
    pdCutRisk_eq_critical_iff s⟩

/-- Witness for C1 at a concrete record whose score is exactly 10. -/
theorem c1_risk_category_buckets_witness :
    ((scoreRow (mkSampleMerged (some 10) none none)).health_risk_category = some "Low Risk" ↔
      0 < (10 : ℚ) ∧ (10 : ℚ) ≤ 10) ∧
    ((scoreRow (mkSampleMerged (some 10) none none)).health_risk_category = some "Medium Risk" ↔
      10 < (10 : ℚ) ∧ (10 : ℚ) ≤ 15) :=
  ⟨(c1_risk_category_buckets (mkSampleMerged (some 10) none none) 10
      (healthRiskScoreOf_sample 10 none none)).1,
    (c1_risk_category_buckets (mkSampleMerged (some 10) none none) 10
      (healthRiskScoreOf_sample 10 none none)).2.1⟩

/-! ## C4: the combined-risk label -/

/-- C4 (confirmed).  For every merged record whose health-risk score is
`s`, the combined-risk label is the high-risk pair of labels exactly
when `s > 15` (split on the food-desert flag), and otherwise
`"Moderate Risk: Desert Only"` or `"Low Risk"` by the flag; in
particular score 20 is high and score 10 is not. -/
theorem c4_combined_risk_label (r : MergedRow) (s : ℚ)
    (h : (scoreRow r).health_risk_score = some s) :
    (scoreRow r).combined_risk =
      if 15 < s then
        (if (scoreRow r).is_food_desert then "High Risk: Desert + Disease"
          else "High Risk: Disease Only")
      else
        (if (scoreRow r).is_food_desert then "Moderate Risk: Desert Only"
          else "Low Risk") := by
  have hs : healthRiskScoreOf r = some s := h
  rw [scoreRow_combined, hs, scoreRow_is_food_desert]
  exact combinedRiskOf_some s _

/-- Witness for C4 at a concrete record with score 20 and a set LILA
flag. -/
theorem c4_combined_risk_label_witness :
    (scoreRow (mkSampleMerged (some 20) (some 1) none)).combined_risk =
      if 15 < (20 : ℚ) then
        (if (scoreRow (mkSampleMerged (some 20) (some 1) none)).is_food_desert then
          "High Risk: Desert + Disease" else "High Risk: Disease Only")
      else
        (if (scoreRow (mkSampleMerged (some 20) (some 1) none)).is_food_desert then
          "Moderate Risk: Desert Only" else "Low Risk") :=
  c4_combined_risk_label (mkSampleMerged (some 20) (some 1) none) 20
    (healthRiskScoreOf_sample 20 (some 1) none)

/-! ## C10: records with all five measures missing -/

/-- C10 (confirmed).  When the five score-contributing measures are all
null, the score stays null, the category stays null, and the combined
risk is `"Low Risk"` whatever the food-desert flag, because a null
score fails both threshold comparisons. -/
theorem c10_all_measures_missing (r : MergedRow)
    (h1 : r.diabetes_prevalence = none) (h2 : r.heart_disease_prevalence = none)
    (h3 : r.obesity_prevalence = none) (h4 : r.high_bp_prevalence = none)
    (h5 : r.no_insurance_pct = none) :
    (scoreRow r).health_risk_score = none ∧
    (scoreRow r).health_risk_category = none ∧
    (scoreRow r).combined_risk = "Low Risk" := by
  have hs : healthRiskScoreOf r = none := by
    simp [healthRiskScoreOf, meanOpt, h1, h2, h3, h4, h5]
  refine ⟨hs, ?_, ?_⟩
  · rw [scoreRow_health_risk_category, hs]
    rfl
  · rw [scoreRow_combined, hs]
    exact combinedRiskOf_none _

/-- Witness for C10 at a concrete record that is a food desert
(LILA flag 1) with every measure missing. -/
theorem c10_all_measures_missing_witness :
    (scoreRow (mkSampleMerged none (some 1) none)).health_risk_score = none ∧
    (scoreRow (mkSampleMerged none (some 1) none)).health_risk_category = none ∧
    (scoreRow (mkSampleMerged none (some 1) none)).combined_risk = "Low Risk" :=
  c10_all_measures_missing (mkSampleMerged none (some 1) none) rfl rfl rfl rfl rfl

/-! ## C6: default filling of missing food-access fields -/

/-- C6 (confirmed).  A merged record with no food-access match gets its
LILA flag defaulted to 0 (not a desert) and its urban flag defaulted to
1 (urban), and every derived risk field is computed from the filled
values: scoring the record is identical to scoring it with the defaults
written in explicitly. -/
theorem c6_missing_food_defaults (r : MergedRow)
    (h1 : r.LILATracts_1And10 = none) (h2 : r.urban = none) :
    (scoreRow r).LILATracts_1And10 = 0 ∧
    (scoreRow r).urban = 1 ∧
    (scoreRow r).is_food_desert = false ∧
    scoreRow r = scoreRow { r with LILATracts_1And10 := some 0, urban := some 1 } := by
  refine ⟨?_, ?_, ?_, ?_⟩
  · show r.LILATracts_1And10.getD 0 = 0
    rw [h1]
    rfl
  · show r.urban.getD 1 = 1
    rw [h2]
    rfl
  · rw [scoreRow_is_food_desert, h1]
    decide
  · simp [scoreRow, healthRiskScoreOf, h1, h2]

/-- Witness for C6 at a concrete record with both food-access flags
missing. -/
theorem c6_missing_food_defaults_witness :
    (scoreRow (mkSampleMerged (some 12) none none)).LILATracts_1And10 = 0 ∧
    (scoreRow (mkSampleMerged (some 12) none none)).urban = 1 ∧
    (scoreRow (mkSampleMerged (some 12) none none)).is_food_desert = false ∧
    scoreRow (mkSampleMerged (some 12) none none) =
      scoreRow { mkSampleMerged (some 12) none none with
        LILATracts_1And10 := some 0, urban := some 1 } :=
  c6_missing_food_defaults (mkSampleMerged (some 12) none none) rfl rfl

/-! ## C2: pivot cardinality -/

theorem mkPivotRow_key (rows : List HealthObs) (k : Nat × String × String) :
    ((mkPivotRow rows k).tract_fips, (mkPivotRow rows k).location_name,
      (mkPivotRow rows k).county_name) = k := rfl

theorem firstVal_isSome (rows : List HealthObs) (r : HealthObs) (hr : r ∈ rows)
    (hv : r.dataValue.isSome = true) :
    (firstVal rows (pivotKey r) r.measureId).isSome = true := by
  obtain ⟨v, hv'⟩ := Option.isSome_iff_exists.mp hv
  have hmem : v ∈ (rows.filter
      (fun x => pivotKey x == pivotKey r && x.measureId == r.measureId)).filterMap
      (fun x => x.dataValue) := by
    refine List.mem_filterMap.mpr ⟨r, ?_, hv'⟩
    rw [List.mem_filter]
    exact ⟨hr, by simp⟩
  unfold firstVal
  rcases hL : (rows.filter
      (fun x => pivotKey x == pivotKey r && x.measureId == r.measureId)).filterMap
      (fun x => x.dataValue) with _ | ⟨a, t⟩
  · rw [hL] at hmem
    cases hmem
  · rw [hL]
    rfl

theorem mkPivotRow_not_allNull (rows : List HealthObs) (r : HealthObs) (hr : r ∈ rows)
    (hm : r.measureId ∈ measures_to_keep) (hv : r.dataValue.isSome = true) :
    pivotRowAllNull (mkPivotRow rows (pivotKey r)) = false := by
  have hfv := firstVal_isSome rows r hr hv
  simp only [measures_to_keep, List.mem_cons, List.not_mem_nil, or_false] at hm
  rcases hm with h | h | h | h | h | h | h | h <;>
    (rw [h] at hfv
     obtain ⟨v, hveq⟩ := Option.isSome_iff_exists.mp hfv
     simp [mkPivotRow, pivotRowAllNull, hveq])

/-- C2 counterexample.  Two filtered observations with the same tract
id but different county names form two pivot groups: the output has 2
rows while there is exactly 1 distinct tract id, so the reshape does
not produce at most one row per distinct tract id when names vary
within a tract id. -/
theorem c2_pivot_counterexample :
    (pivot_health_data
      [⟨"CA", 6001000100, "Tract A", "Alameda", "DIABETES", "Crude prevalence", some 10⟩,
       ⟨"CA", 6001000100, "Tract A", "Contra Costa", "DIABETES", "Crude prevalence", some 12⟩]).length = 2 ∧
    (([⟨"CA", 6001000100, "Tract A", "Alameda", "DIABETES", "Crude prevalence", some 10⟩,
       ⟨"CA", 6001000100, "Tract A", "Contra Costa", "DIABETES", "Crude prevalence",
         some 12⟩].map (fun r : HealthObs => r.locationID)).dedup).length = 1 := by
  decide

/-- C2 (corrected).  The pivot produces at most one row per distinct
(tract id, display name, county name) triple — not per tract id — and
when every filtered observation carries a value, the output row count
equals the number of distinct such triples.  When the display or county
name varies within a tract id, a tract id yields several rows. -/
theorem c2_pivot_row_cardinality (rows : List HealthObs)
    (hm : ∀ r ∈ rows, r.measureId ∈ measures_to_keep)
    (hv : ∀ r ∈ rows, r.dataValue.isSome = true) :
    (pivot_health_data rows).length = ((rows.map pivotKey).dedup).length ∧
    ((pivot_health_data rows).map
      (fun p => (p.tract_fips, p.location_name, p.county_name))).Nodup := by
  have hkeep : ∀ p ∈ ((rows.map pivotKey).dedup).map (mkPivotRow rows),
      (!(pivotRowAllNull p)) = true := by
    intro p hp
    obtain ⟨k, hk, hpk⟩ := List.mem_map.mp hp
    have hk2 : k ∈ rows.map pivotKey := List.mem_dedup.mp hk
    obtain ⟨r, hr, hkr⟩ := List.mem_map.mp hk2
    subst hkr
    subst hpk
    have hfalse := mkPivotRow_not_allNull rows r hr (hm r hr) (hv r hr)
    simp [hfalse]
  have heq : pivot_health_data rows = ((rows.map pivotKey).dedup).map (mkPivotRow rows) := by
    unfold pivot_health_data
    exact List.filter_eq_self.mpr hkeep
  constructor
  · rw [heq, List.length_map]
  · rw [heq, List.map_map]
    have hcomp : ((fun p : PivotRow => (p.tract_fips, p.location_name, p.county_name)) ∘
        mkPivotRow rows) = id := by
      funext k
      exact mkPivotRow_key rows k
    rw [hcomp, List.map_id]
    exact List.nodup_dedup _

/-- Witness for C2 on a concrete two-observation input with distinct
triples. -/
theorem c2_pivot_row_cardinality_witness :
    (pivot_health_data
      [⟨"CA", 6001000100, "Tract A", "Alameda", "DIABETES", "Crude prevalence", some 10⟩,
       ⟨"CA", 6001000200, "Tract B", "Alameda", "OBESITY", "Crude prevalence", some 25⟩]).length =
      (([⟨"CA", 6001000100, "Tract A", "Alameda", "DIABETES", "Crude prevalence", some 10⟩,
         ⟨"CA", 6001000200, "Tract B", "Alameda", "OBESITY", "Crude prevalence",
           some 25⟩].map pivotKey).dedup).length ∧
    ((pivot_health_data
      [⟨"CA", 6001000100, "Tract A", "Alameda", "DIABETES", "Crude prevalence", some 10⟩,
       ⟨"CA", 6001000200, "Tract B", "Alameda", "OBESITY", "Crude prevalence", some 25⟩]).map
      (fun p => (p.tract_fips, p.location_name, p.county_name))).Nodup :=
  c2_pivot_row_cardinality
    [⟨"CA", 6001000100, "Tract A", "Alameda", "DIABETES", "Crude prevalence", some 10⟩,
     ⟨"CA", 6001000200, "Tract B", "Alameda", "OBESITY", "Crude prevalence", some 25⟩]
    (by decide) (by decide)


/-! ## C3: left-join cardinality -/

theorem length_filter_key_le_one {α κ : Type} [DecidableEq κ] (key : α → κ)
    (l : List α) (hnd : (l.map key).Nodup) (k : κ) :
    (l.filter (fun a => key a == k)).length ≤ 1 := by
  induction l with
  | nil => simp
  | cons a t ih =>
    rw [List.map_cons, List.nodup_cons] at hnd
    by_cases hk : key a = k
    · have hTfil : t.filter (fun b => key b == k) = [] := by
        rw [List.filter_eq_nil_iff]
        intro b hb hbk
        rw [beq_iff_eq] at hbk
        exact hnd.1 (List.mem_map.mpr ⟨b, hb, by rw [hbk, hk]⟩)
      rw [List.filter_cons_of_pos (by simp [hk]), hTfil]
      simp
    · rw [List.filter_cons_of_neg (by simp [hk])]
      exact ih hnd.2

theorem mergeBundle_length (food2 : List FoodRowP)
    (hnd2 : (food2.map (fun f => f.tract_fips)).Nodup) (h : PivotRow) :
    (mergeBundle food2 h).length = 1 := by
  have hle := length_filter_key_le_one (fun f : FoodRowP => f.tract_fips) food2 hnd2
    (pyZfill 11 (toString h.tract_fips))
  unfold mergeBundle
  rcases hms : food2.filter (fun f => f.tract_fips == pyZfill 11 (toString h.tract_fips)) with
    _ | ⟨x, xs⟩
  · rw [hms]
    rfl
  · rw [hms]
    rw [hms] at hle
    simp only [List.length_map, List.length_cons] at hle ⊢
    omega

/-- C3 counterexample.  A left join against a food-access table whose
tract id appears twice duplicates the matching health row: one health
row and two matching food rows yield two merged rows, not one. -/
theorem c3_merge_counterexample :
    (merge_datasets
      [⟨6001000100, "Tract A", "Alameda", some 10, none, none, none, none, none, none, none⟩]
      [⟨⟨6001000100, "California", "Alameda", some 1, some 1, none, none, none, none, none,
          none, none, none⟩, "6001000100"⟩,
       ⟨⟨6001000100, "California", "Alameda", some 1, some 1, none, none, none, none, none,
          none, none, none⟩, "6001000100"⟩]).length = 2 ∧
    ([⟨6001000100, "Tract A", "Alameda", some 10, none, none, none, none, none, none, none⟩] :
      List PivotRow).length = 1 :=
  ⟨rfl, rfl⟩

/-- C3 (corrected).  When the food-access side has pairwise-distinct
tract ids (as the one-row-per-tract USDA table does), the left join
keeps exactly one output row per health row — the output row count
equals the health-side row count — and a merged row whose tract id
matches no food-access row has every food-access field null.  Without
that distinctness the join multiplies matching rows, as the
counterexample shows. -/
theorem c3_merge_left_join (health : List PivotRow) (food : List FoodRowP)
    (hnd : (food.map (fun f => pyZfill 11 f.tract_fips)).Nodup) :
    (merge_datasets health food).length = health.length ∧
    (∀ m ∈ merge_datasets health food,
      (∀ f ∈ food, pyZfill 11 f.tract_fips ≠ m.tract_fips) →
      m.censusTract = none ∧ m.state = none ∧ m.county = none ∧ m.urban = none ∧
      m.LILATracts_1And10 = none ∧ m.LILATracts_halfAnd10 = none ∧
      m.LILATracts_1And20 = none ∧ m.lapophalf = none ∧ m.lapop1 = none ∧
      m.lapop10 = none ∧ m.lalowihalf = none ∧ m.lalowi1 = none ∧ m.lalowi10 = none) := by
  have hnd2 : ((food.map
      (fun f => { f with tract_fips := pyZfill 11 f.tract_fips })).map
      (fun f => f.tract_fips)).Nodup := by
    rw [List.map_map]
    exact hnd
  constructor
  · unfold merge_datasets
    induction health with
    | nil => rfl
    | cons hh t ih =>
      rw [List.flatMap_cons, List.length_append, ih, mergeBundle_length _ hnd2 hh,
        List.length_cons]
      omega
  · intro m hm hnone
    obtain ⟨hh, hhmem, hmm⟩ := List.mem_flatMap.mp hm
    unfold mergeBundle at hmm
    rcases hms : (food.map (fun f => { f with tract_fips := pyZfill 11 f.tract_fips })).filter
        (fun f => f.tract_fips == pyZfill 11 (toString hh.tract_fips)) with _ | ⟨x, xs⟩
    · rw [hms] at hmm
      have hmeq : m = mergeRow hh (pyZfill 11 (toString hh.tract_fips)) none := by
        simpa using hmm
      subst hmeq
      exact ⟨rfl, rfl, rfl, rfl, rfl, rfl, rfl, rfl, rfl, rfl, rfl, rfl, rfl⟩
    · exfalso
      rw [hms] at hmm
      obtain ⟨f, hf, hfeq⟩ := List.mem_map.mp hmm
      have hffil : f ∈ (food.map
          (fun f => { f with tract_fips := pyZfill 11 f.tract_fips })).filter
          (fun f => f.tract_fips == pyZfill 11 (toString hh.tract_fips)) := by
        rw [hms]
        exact hf
      rw [List.mem_filter] at hffil
      obtain ⟨g, hg, hgeq⟩ := List.mem_map.mp hffil.1
      have hkey : f.tract_fips = pyZfill 11 (toString hh.tract_fips) := by
        simpa using hffil.2
      have hgkey : pyZfill 11 g.tract_fips = f.tract_fips := by
        rw [← hgeq]
      have hmtract : m.tract_fips = pyZfill 11 (toString hh.tract_fips) := by
        rw [← hfeq]
        rfl
      exact hnone g hg (by rw [hgkey, hkey, hmtract])

/-- Witness for C3 on a one-row health table and a one-row food table
with matching tract ids. -/
theorem c3_merge_left_join_witness :
    (merge_datasets
      [⟨6001000100, "Tract A", "Alameda", some 10, none, none, none, none, none, none, none⟩]
      [⟨⟨6001000100, "California", "Alameda", some 1, some 1, none, none, none, none, none,
          none, none, none⟩, "6001000100"⟩]).length =
      ([⟨6001000100, "Tract A", "Alameda", some 10, none, none, none, none, none, none,
          none⟩] : List PivotRow).length ∧
    (∀ m ∈ merge_datasets
      [⟨6001000100, "Tract A", "Alameda", some 10, none, none, none, none, none, none, none⟩]
      [⟨⟨6001000100, "California", "Alameda", some 1, some 1, none, none, none, none, none,
          none, none, none⟩, "6001000100"⟩],
      (∀ f ∈ ([⟨⟨6001000100, "California", "Alameda", some 1, some 1, none, none, none, none,
          none, none, none, none⟩, "6001000100"⟩] : List FoodRowP),
        pyZfill 11 f.tract_fips ≠ m.tract_fips) →
      m.censusTract = none ∧ m.state = none ∧ m.county = none ∧ m.urban = none ∧
      m.LILATracts_1And10 = none ∧ m.LILATracts_halfAnd10 = none ∧
      m.LILATracts_1And20 = none ∧ m.lapophalf = none ∧ m.lapop1 = none ∧
      m.lapop10 = none ∧ m.lalowihalf = none ∧ m.lalowi1 = none ∧ m.lalowi10 = none) :=
  c3_merge_left_join
    [⟨6001000100, "Tract A", "Alameda", some 10, none, none, none, none, none, none, none⟩]
    [⟨⟨6001000100, "California", "Alameda", some 1, some 1, none, none, none, none, none,
        none, none, none⟩, "6001000100"⟩]
    (by decide)

/-! ## C9: the empty county-filtered output -/

theorem focus_snd_eq (df : List ScoredRow) :
    (focus_on_santa_clara df).2 =
      if 0 < (focus_on_santa_clara df).1.length then some (focus_on_santa_clara df).1
      else none := rfl

theorem runPipeline_ok (env : Env) (h1 : env.cdcExists = true) (h2 : env.usdaExists = true) :
    runPipeline env = Except.ok (pipelineFinal env) := by
  simp [runPipeline, load_cdc_places, load_usda_food_access, h1, h2, pipelineFinal,
    Bind.bind, Except.bind, pure, Except.pure]

/-- C9 counterexample.  On a scored table whose only row is in San
Diego County the county filter keeps zero rows, and the second output
is not written at all (`focus_on_santa_clara` performs no write), while
the claim says a zero-row file is written. -/
theorem c9_empty_output_counterexample :
    (focus_on_santa_clara [⟨"06073000100", "Tract SD", "San Diego", none, none, none, none,
      none, none, none, none, none, none, none, 1, 0, none, none, none, none, none, none,
      none, none, some 10, some "Low Risk", false, "Low Risk"⟩]).1 = [] ∧
    (focus_on_santa_clara [⟨"06073000100", "Tract SD", "San Diego", none, none, none, none,
      none, none, none, none, none, none, none, 1, 0, none, none, none, none, none, none,
      none, none, some 10, some "Low Risk", false, "Low Risk"⟩]).2 = none := by
  constructor
  · rfl
  · rfl

/-- C9 (corrected).  When zero rows match the county filter the run
still completes successfully — an empty result is not an error, and the
full California output is written — but the county-filtered second
output is not written at all (the script writes it only when at least
one row matches). -/
theorem c9_empty_filter_still_succeeds (env : Env)
    (h1 : env.cdcExists = true) (h2 : env.usdaExists = true)
    (h3 : (focus_on_santa_clara (pipelineFinal env)).1 = []) :
    mainRun env =
      MainOutcome.completed [("california_health_equity.csv", pipelineFinal env)] := by
  have hok := runPipeline_ok env h1 h2
  simp only [mainRun, hok, pipelineWrites, focus_snd_eq, h3]
  rfl

/-- Witness for C9 at a concrete environment (both raw files present,
no rows at all, hence no Santa Clara rows). -/
theorem c9_empty_filter_still_succeeds_witness :
    mainRun ⟨true, [], true, []⟩ =
      MainOutcome.completed
        [("california_health_equity.csv", pipelineFinal ⟨true, [], true, []⟩)] :=
  c9_empty_filter_still_succeeds ⟨true, [], true, []⟩ rfl rfl rfl
